import Mathlib

/-!
Shallow embedding of the `AudioRoutingGraphPlugin` class from the
audio-routing-graph-plugin repository.

The repository ships two variants of the same class:
  * `src/index.js`   (the JavaScript variant), and
  * `src/src/index.ts` (the TypeScript variant).
They differ in three observable ways, both of which are modelled here:
  * defaulting: the JS variant replaces any *falsy* configuration value
    (`gain || 1`, ...) with the default, while the TS variant uses
    destructuring defaults (`{ gain = 1 }`) which fire only on `undefined`;
  * `addNode`: the JS variant calls the asynchronous helpers
    (`_addConvolverNode`, `_addProcessingScript`) without `await`, so the
    caller-visible return carries no error and precedes the asynchronous
    work; the TS variant `await`s them;
  * the preset catalog: the JS variant knows one preset, the TS variant five.

Mutable `this` state is threaded explicitly through a `Plugin` record.
Numbers are modelled as rationals, JS values as a small sum type, and the
browser environment (fetch/decode outcomes, worklet-module registration,
processor construction) as explicit `Except` parameters, since the plugin
treats those operations as black boxes.
-/

namespace AudioRoutingGraph

/-- A JavaScript-like configuration value, as far as the plugin inspects one. -/
inductive JSValue where
  | undef
  | null
  | num (q : ℚ)
  | str (s : String)
  | bool (b : Bool)
  deriving DecidableEq, Repr

/-- JavaScript truthiness, restricted to the values above
(`0`, `""`, `null`, `undefined`, `false` are falsy). -/
def JSValue.truthy : JSValue → Bool
  | .undef => false
  | .null => false
  | .num q => decide (q ≠ 0)
  | .str s => decide (s ≠ "")
  | .bool b => b

/-- JavaScript `a || b`: `a` when truthy, otherwise `b`. -/
def jsOr (a b : JSValue) : JSValue :=
  if a.truthy then a else b

/-- TypeScript destructuring default `{ x = d }`: `d` only when `x` is `undefined`. -/
def tsDefault (a d : JSValue) : JSValue :=
  if a = .undef then d else a

/-- Kind of a `MediaStreamTrack`. -/
inductive TrackKind where
  | audio
  | video
  deriving DecidableEq, Repr

/-- A `MediaStreamTrack`, identified by reference (modelled as an id). -/
structure Track where
  id : ℕ
  kind : TrackKind
  deriving DecidableEq, Repr

/-- A `MediaStream`: an ordered collection of tracks. -/
structure MediaStream where
  tracks : List Track
  deriving DecidableEq, Repr

/-- Models `stream.getAudioTracks()`. -/
def MediaStream.getAudioTracks (s : MediaStream) : List Track :=
  s.tracks.filter (fun t => t.kind = TrackKind.audio)

/-- Models `stream.getVideoTracks()`. -/
def MediaStream.getVideoTracks (s : MediaStream) : List Track :=
  s.tracks.filter (fun t => t.kind = TrackKind.video)

/-- Models `stream.addTrack(t)`: appends the track; a track already present is not
added again (per the MediaStream API). -/
def MediaStream.addTrack (s : MediaStream) (t : Track) : MediaStream :=
  if t ∈ s.tracks then s else ⟨s.tracks ++ [t]⟩

/-- Descriptor of a constructed audio node: its kind and the configuration
actually applied to the underlying native object. -/
inductive NodeDesc where
  | source
  | gainNode (gain : JSValue)
  | biquadFilterNode (type frequency q : JSValue)
  | dynamicsCompressorNode (threshold knee ratio attack release : JSValue)
  | delayNode (delayTime maxDelayTime : JSValue)
  | convolverNode (buffer : Option ℕ) (normalize : JSValue)
  | waveShaperNode (curve oversample : JSValue)
  | audioWorkletNode (processorName : JSValue)
  | destination
  deriving DecidableEq, Repr

/-- An audio-node object: identity (allocation id) plus its descriptor. -/
structure NodeObj where
  id : ℕ
  desc : NodeDesc
  deriving DecidableEq, Repr

/-- The options object passed to `addNode`: a JS object from which each
helper destructures the fields it cares about; absent fields read as
`undefined`. -/
structure NodeOptionsObj where
  gain : JSValue
  type : JSValue
  frequency : JSValue
  Q : JSValue
  threshold : JSValue
  knee : JSValue
  ratio : JSValue
  attack : JSValue
  release : JSValue
  delayTime : JSValue
  maxDelayTime : JSValue
  buffer : JSValue
  normalize : JSValue
  curve : JSValue
  oversample : JSValue
  scriptLocation : JSValue
  processorName : JSValue
  deriving DecidableEq, Repr

/-- The empty options object `{}`: every field reads as `undefined`. -/
def emptyOpts : NodeOptionsObj :=
  ⟨.undef, .undef, .undef, .undef, .undef, .undef, .undef, .undef, .undef,
   .undef, .undef, .undef, .undef, .undef, .undef, .undef, .undef⟩

/-- An options object whose every field reads as the given value. -/
def allOpts (v : JSValue) : NodeOptionsObj :=
  ⟨v, v, v, v, v, v, v, v, v, v, v, v, v, v, v, v, v⟩

/-- Errors raised by the browser environment during resource loading.
The plugin source defines no error classes of its own; these are the
environment-produced failures it can only propagate. -/
inductive JSError where
  | resourceFetchError
  | decodeError
  | moduleLoadError
  | processorInstantiationError
  deriving DecidableEq, Repr

instance exceptDecEq {ε α : Type} [DecidableEq ε] [DecidableEq α] :
    DecidableEq (Except ε α) := fun x y =>
  match x, y with
  | .ok a, .ok b =>
    if h : a = b then .isTrue (by rw [h]) else .isFalse (by simp [h])
  | .error a, .error b =>
    if h : a = b then .isTrue (by rw [h]) else .isFalse (by simp [h])
  | .ok _, .error _ => .isFalse (by simp)
  | .error _, .ok _ => .isFalse (by simp)

/-- Outcomes of the black-box asynchronous environment operations an `addNode`
call may perform: `fetch`+`arrayBuffer`+`decodeAudioData` collapsed into one
decoded-buffer outcome, `audioWorklet.addModule`, and the
`AudioWorkletNode` constructor. -/
structure Env where
  decoded : Except JSError ℕ
  moduleResult : Except JSError Unit
  ctorResult : Except JSError Unit
  deriving DecidableEq, Repr

/-- The mutable state of an `AudioRoutingGraphPlugin` instance:
`this.nodes`, the connections established on the audio context, a fresh-id
counter for node allocation, `this.source`, `this.destination`,
`this.originalStream`, and `this.destination.stream`. -/
structure Plugin where
  nodes : List NodeObj
  conns : List (ℕ × ℕ)
  nextId : ℕ
  source : NodeObj
  destination : NodeObj
  originalStream : MediaStream
  destStream : MediaStream
  deriving DecidableEq, Repr

/-- The constructor: creates the source from the input stream, pushes it on
`nodes`, creates the destination, and remembers the original stream.
`destStream` is the destination node's `stream` property, whose audio
content is produced by the audio runtime; its track list is a parameter. -/
def mkPlugin (stream destStream : MediaStream) : Plugin :=
  { nodes := [⟨0, .source⟩]
    conns := []
    nextId := 2
    source := ⟨0, .source⟩
    destination := ⟨1, .destination⟩
    originalStream := stream
    destStream := destStream }

/-- Method `_pushBack(node)`: connects `this.nodes[this.nodes.length-1]` to the
node, then pushes the node. (`nodes` is never empty after construction, so
the `getLastD` default is never consulted on reachable states.) -/
def _pushBack (st : Plugin) (node : NodeObj) : Plugin :=
  { st with
    conns := st.conns ++ [((st.nodes.getLastD st.source).id, node.id)]
    nodes := st.nodes ++ [node] }

/-- Allocation of an audio node on the context (`createGain()` etc.):
yields a fresh id and bumps the counter. -/
def createNode (st : Plugin) (d : NodeDesc) : NodeObj × Plugin :=
  (⟨st.nextId, d⟩, { st with nextId := st.nextId + 1 })

/-- JS `_addGainNode`: `gainNode.gain.value = gain || 1`. -/
def _addGainNode (st : Plugin) (o : NodeOptionsObj) : Plugin :=
  let p := createNode st (.gainNode (jsOr o.gain (.num 1)))
  _pushBack p.2 p.1

/-- TS `_addGainNode`: destructuring default `{ gain = 1 }`. -/
def _addGainNodeTS (st : Plugin) (o : NodeOptionsObj) : Plugin :=
  let p := createNode st (.gainNode (tsDefault o.gain (.num 1)))
  _pushBack p.2 p.1

/-- JS `_addBiquadFilterNode`: `type || 'lowpass'`, `frequency || 350`, `Q || 1`. -/
def _addBiquadFilterNode (st : Plugin) (o : NodeOptionsObj) : Plugin :=
  let p := createNode st
    (.biquadFilterNode (jsOr o.type (.str "lowpass")) (jsOr o.frequency (.num 350))
      (jsOr o.Q (.num 1)))
  _pushBack p.2 p.1

/-- TS `_addBiquadFilterNode`: defaults fire only on `undefined`. -/
def _addBiquadFilterNodeTS (st : Plugin) (o : NodeOptionsObj) : Plugin :=
  let p := createNode st
    (.biquadFilterNode (tsDefault o.type (.str "lowpass"))
      (tsDefault o.frequency (.num 350)) (tsDefault o.Q (.num 1)))
  _pushBack p.2 p.1

/-- JS `_addDynamicCompressorNode`: `threshold || -50`, `knee || 40`,
`ratio || 12`, `attack || 0`, `release || 0.25`. -/
def _addDynamicCompressorNode (st : Plugin) (o : NodeOptionsObj) : Plugin :=
  let p := createNode st
    (.dynamicsCompressorNode (jsOr o.threshold (.num (-50))) (jsOr o.knee (.num 40))
      (jsOr o.ratio (.num 12)) (jsOr o.attack (.num 0)) (jsOr o.release (.num (1/4))))
  _pushBack p.2 p.1

/-- TS `_addDynamicCompressorNode`: defaults fire only on `undefined`. -/
def _addDynamicCompressorNodeTS (st : Plugin) (o : NodeOptionsObj) : Plugin :=
  let p := createNode st
    (.dynamicsCompressorNode (tsDefault o.threshold (.num (-50)))
      (tsDefault o.knee (.num 40)) (tsDefault o.ratio (.num 12))
      (tsDefault o.attack (.num 0)) (tsDefault o.release (.num (1/4))))
  _pushBack p.2 p.1

/-- Method `_addDelayNode` (identical in both variants): constructs the `DelayNode`
with the given `delayTime` and `maxDelayTime` — no defaults, no validation —
and pushes it. -/
def _addDelayNode (st : Plugin) (o : NodeOptionsObj) : Plugin :=
  let p := createNode st (.delayNode o.delayTime o.maxDelayTime)
  _pushBack p.2 p.1

/-- Method `_addConvolverNode` (identical in both variants): creates the convolver
node, then awaits fetch + arrayBuffer + decodeAudioData (outcome `decoded`);
on failure the error propagates with `this.nodes` untouched, on success the
decoded buffer is set and the node is pushed. The error case carries the
`this` state at the moment the exception propagates. -/
def _addConvolverNode (st : Plugin) (o : NodeOptionsObj)
    (decoded : Except JSError ℕ) : Except (JSError × Plugin) Plugin :=
  let p := createNode st (.convolverNode none o.normalize)
  match decoded with
  | .error e => .error (e, p.2)
  | .ok buf => .ok (_pushBack p.2 ⟨p.1.id, .convolverNode (some buf) o.normalize⟩)

/-- Method `_addWaveShaperNode` (identical in both variants). -/
def _addWaveShaperNode (st : Plugin) (o : NodeOptionsObj) : Plugin :=
  let p := createNode st (.waveShaperNode o.curve o.oversample)
  _pushBack p.2 p.1

/-- Method `_addProcessingScript` (observably identical in both variants: every
`catch` block just rethrows): awaits `audioWorklet.addModule`, then
constructs the `AudioWorkletNode` and pushes it; either step may fail, and
a failure leaves `this.nodes` untouched. -/
def _addProcessingScript (st : Plugin) (o : NodeOptionsObj)
    (moduleResult ctorResult : Except JSError Unit) : Except (JSError × Plugin) Plugin :=
  match moduleResult with
  | .error e => .error (e, st)
  | .ok _ =>
    match ctorResult with
    | .error e => .error (e, st)
    | .ok _ =>
      let p := createNode st (.audioWorkletNode o.processorName)
      .ok (_pushBack p.2 p.1)

/-- JS `addNode`: a synchronous `switch` with no `default` branch. The
asynchronous helpers are invoked *without* `await`, so for `CONVOLVER` and
`PROCESSING_SCRIPT` the function returns after only the synchronous prefix
of the helper has run; the helper's eventual outcome is returned here as a
separate pending component that the source never observes. -/
def addNode (st : Plugin) (nodeName : String) (o : NodeOptionsObj) (env : Env) :
    Plugin × Option (Except (JSError × Plugin) Plugin) :=
  if nodeName = "GAIN" then (_addGainNode st o, none)
  else if nodeName = "BIQUAD_FILTER" then (_addBiquadFilterNode st o, none)
  else if nodeName = "DYNAMIC_COMPRESSOR" then (_addDynamicCompressorNode st o, none)
  else if nodeName = "DELAY" then (_addDelayNode st o, none)
  else if nodeName = "CONVOLVER" then
    ({ st with nextId := st.nextId + 1 }, some (_addConvolverNode st o env.decoded))
  else if nodeName = "WAVE_SHAPER" then (_addWaveShaperNode st o, none)
  else if nodeName = "PROCESSING_SCRIPT" then
    (st, some (_addProcessingScript st o env.moduleResult env.ctorResult))
  else (st, none)

/-- TS `addNode`: the same `switch`, but `CONVOLVER` and `PROCESSING_SCRIPT`
are `await`ed, so their errors propagate to the caller and the promise
resolves only after the asynchronous work finished. An unmatched name falls
through the `switch` and resolves without doing anything. -/
def addNodeTS (st : Plugin) (nodeName : String) (o : NodeOptionsObj) (env : Env) :
    Except (JSError × Plugin) Plugin :=
  if nodeName = "GAIN" then .ok (_addGainNodeTS st o)
  else if nodeName = "BIQUAD_FILTER" then .ok (_addBiquadFilterNodeTS st o)
  else if nodeName = "DYNAMIC_COMPRESSOR" then .ok (_addDynamicCompressorNodeTS st o)
  else if nodeName = "DELAY" then .ok (_addDelayNode st o)
  else if nodeName = "CONVOLVER" then _addConvolverNode st o env.decoded
  else if nodeName = "WAVE_SHAPER" then .ok (_addWaveShaperNode st o)
  else if nodeName = "PROCESSING_SCRIPT" then
    _addProcessingScript st o env.moduleResult env.ctorResult
  else .ok st

/-- Method `getProcessedStream` (identical in both variants): pushes the
destination onto the chain, then builds a fresh `MediaStream` holding first
the destination stream's audio tracks, then the original stream's video
tracks. No guard prevents calling it twice. -/
def getProcessedStream (st : Plugin) : Plugin × MediaStream :=
  let st1 := _pushBack st st.destination
  let withAudio := st1.destStream.getAudioTracks.foldl MediaStream.addTrack ⟨[]⟩
  let withVideo := st1.originalStream.getVideoTracks.foldl MediaStream.addTrack withAudio
  (st1, withVideo)

/-- A benign environment for stage kinds that never consult it. -/
def dummyEnv : Env := ⟨.ok 0, .ok (), .ok ()⟩

/-- TS `usePreset`: a `switch` over the preset name with no `default`
branch, awaiting `addNode` for each entry of the recognized preset, then
unconditionally `return this.getProcessedStream()`. -/
def usePreset (st : Plugin) (preset : String) :
    Except (JSError × Plugin) (Plugin × MediaStream) := do
  let st1 ←
    if preset = "GAIN_BIQUAD_DELAY" then do
      let s1 ← addNodeTS st "GAIN" { emptyOpts with gain := .num (3/2) } dummyEnv
      let s2 ← addNodeTS s1 "BIQUAD_FILTER"
        { emptyOpts with type := .str "highpass", frequency := .num 1000, Q := .num 1 } dummyEnv
      addNodeTS s2 "DELAY"
        { emptyOpts with delayTime := .num (3/10), maxDelayTime := .num 1 } dummyEnv
    else if preset = "GAIN_DELAY" then do
      let s1 ← addNodeTS st "GAIN" { emptyOpts with gain := .num (1/2) } dummyEnv
      addNodeTS s1 "DELAY"
        { emptyOpts with delayTime := .num (1/4), maxDelayTime := .num (1/2) } dummyEnv
    else if preset = "DYNAMIC_DELAY" then do
      let s1 ← addNodeTS st "DYNAMIC_COMPRESSOR"
        { emptyOpts with
          threshold := .num (-24)
          knee := .num 20
          ratio := .num 12
          attack := .num (3/10)
          release := .num (1/4) } dummyEnv
      addNodeTS s1 "DELAY"
        { emptyOpts with delayTime := .num (3/10), maxDelayTime := .num 1 } dummyEnv
    else if preset = "ECHO" then do
      let s1 ← addNodeTS st "DELAY"
        { emptyOpts with delayTime := .num (1/4), maxDelayTime := .num (1/2) } dummyEnv
      addNodeTS s1 "GAIN" { emptyOpts with gain := .num (1/2) } dummyEnv
    else if preset = "BIQUAD_DELAY" then do
      let s1 ← addNodeTS st "BIQUAD_FILTER"
        { emptyOpts with type := .str "highpass", frequency := .num 2000, Q := .num 2 } dummyEnv
      addNodeTS s1 "DELAY"
        { emptyOpts with delayTime := .num (1/4), maxDelayTime := .num (1/2) } dummyEnv
    else pure st
  pure (getProcessedStream st1)

/-- JS `usePreset`: same shape, but only `GAIN_BIQUAD_DELAY` is in the
catalog, and the (synchronous) `addNode` calls are not awaited. -/
def usePresetJS (st : Plugin) (preset : String) : Plugin × MediaStream :=
  let st1 :=
    if preset = "GAIN_BIQUAD_DELAY" then
      let s1 := (addNode st "GAIN" { emptyOpts with gain := .num (3/2) } dummyEnv).1
      let s2 := (addNode s1 "BIQUAD_FILTER"
        { emptyOpts with type := .str "highpass", frequency := .num 1000, Q := .num 1 }
        dummyEnv).1
      (addNode s2 "DELAY"
        { emptyOpts with delayTime := .num (3/10), maxDelayTime := .num 1 } dummyEnv).1
    else st
  getProcessedStream st1

/-- The TS preset catalog's names. -/
def presetNames : List String :=
  ["GAIN_BIQUAD_DELAY", "GAIN_DELAY", "DYNAMIC_DELAY", "ECHO", "BIQUAD_DELAY"]

/-- Spec-side decomposition of `usePreset`: just the stage-appending part
of each preset branch, with no finalization.  Used to state that
`usePreset` is exactly "apply the preset's stages, then finalize". -/
def presetStages (st : Plugin) (preset : String) : Plugin :=
  if preset = "GAIN_BIQUAD_DELAY" then
    _addDelayNode
      (_addBiquadFilterNodeTS (_addGainNodeTS st { emptyOpts with gain := .num (3/2) })
        { emptyOpts with type := .str "highpass", frequency := .num 1000, Q := .num 1 })
      { emptyOpts with delayTime := .num (3/10), maxDelayTime := .num 1 }
  else if preset = "GAIN_DELAY" then
    _addDelayNode (_addGainNodeTS st { emptyOpts with gain := .num (1/2) })
      { emptyOpts with delayTime := .num (1/4), maxDelayTime := .num (1/2) }
  else if preset = "DYNAMIC_DELAY" then
    _addDelayNode
      (_addDynamicCompressorNodeTS st
        { emptyOpts with
          threshold := .num (-24)
          knee := .num 20
          ratio := .num 12
          attack := .num (3/10)
          release := .num (1/4) })
      { emptyOpts with delayTime := .num (3/10), maxDelayTime := .num 1 }
  else if preset = "ECHO" then
    _addGainNodeTS
      (_addDelayNode st { emptyOpts with delayTime := .num (1/4), maxDelayTime := .num (1/2) })
      { emptyOpts with gain := .num (1/2) }
  else if preset = "BIQUAD_DELAY" then
    _addDelayNode
      (_addBiquadFilterNodeTS st
        { emptyOpts with type := .str "highpass", frequency := .num 2000, Q := .num 2 })
      { emptyOpts with delayTime := .num (1/4), maxDelayTime := .num (1/2) }
  else st

/-- The seven stage kinds recognized by `addNode`'s `switch`. -/
inductive NodeKind where
  | gain
  | biquadFilter
  | dynamicCompressor
  | delay
  | convolver
  | waveShaper
  | processingScript
  deriving DecidableEq, Repr

/-- The string each kind carries through the `switch`. -/
def NodeKind.name : NodeKind → String
  | .gain => "GAIN"
  | .biquadFilter => "BIQUAD_FILTER"
  | .dynamicCompressor => "DYNAMIC_COMPRESSOR"
  | .delay => "DELAY"
  | .convolver => "CONVOLVER"
  | .waveShaper => "WAVE_SHAPER"
  | .processingScript => "PROCESSING_SCRIPT"

/-- One `addNode` call of a recognized kind, with its options and the
environment outcomes its asynchronous work (if any) will see. -/
structure AppendCall where
  kind : NodeKind
  opts : NodeOptionsObj
  env : Env
  deriving DecidableEq, Repr

/-- A serialized sequence of awaited `addNode` calls, stopping at the
first error, as mandated for preset application. -/
def runCalls (st : Plugin) : List AppendCall → Except (JSError × Plugin) Plugin
  | [] => .ok st
  | c :: cs =>
    match addNodeTS st c.kind.name c.opts c.env with
    | .error e => .error e
    | .ok st1 => runCalls st1 cs

/-- The list of adjacent id pairs of a node sequence, in order. -/
def adjPairs : List NodeObj → List (ℕ × ℕ)
  | a :: b :: rest => (a.id, b.id) :: adjPairs (b :: rest)
  | _ => []

/-- The common shape of every successful stage addition: allocate a fresh
node for the descriptor and push it at the tail. -/
def stepPush (st : Plugin) (d : NodeDesc) : Plugin :=
  _pushBack { st with nextId := st.nextId + 1 } ⟨st.nextId, d⟩

/-- Chain well-formedness: the first node is the source, node ids strictly
increase along the chain (hence no node appears twice), every node id is
below the allocation counter, and the established connections are exactly
the adjacent pairs of the chain in order. -/
def Inv (st : Plugin) : Prop :=
  st.nodes.head? = some st.source ∧
  st.nodes.Chain' (fun a b => a.id < b.id) ∧
  (∀ n ∈ st.nodes, n.id < st.nextId) ∧
  st.conns = adjPairs st.nodes

theorem adjPairs_concat (d : NodeObj) :
    ∀ (l : List NodeObj) (a n : NodeObj),
      adjPairs ((a :: l) ++ [n]) = adjPairs (a :: l) ++ [(((a :: l).getLastD d).id, n.id)]
  | [], a, n => by
    simp [adjPairs, List.getLastD_cons, List.getLastD_nil]
  | b :: l, a, n => by
    have ih := adjPairs_concat d l b n
    simp only [List.cons_append, adjPairs, List.getLastD_cons, List.append_eq] at ih ⊢
    rw [ih]

theorem stepPush_nodes (st : Plugin) (d : NodeDesc) :
    (stepPush st d).nodes = st.nodes ++ [⟨st.nextId, d⟩] := rfl

theorem stepPush_source (st : Plugin) (d : NodeDesc) :
    (stepPush st d).source = st.source := rfl

theorem Inv_stepPush {st : Plugin} (d : NodeDesc) (h : Inv st) : Inv (stepPush st d) := by
  obtain ⟨hhead, hchain, hlt, hconns⟩ := h
  cases hn : st.nodes with
  | nil => rw [hn] at hhead; simp at hhead
  | cons a t =>
    rw [hn] at hhead
    simp only [List.head?_cons, Option.some.injEq] at hhead
    refine ⟨?_, ?_, ?_, ?_⟩
    · show (st.nodes ++ [(⟨st.nextId, d⟩ : NodeObj)]).head? = some st.source
      rw [hn, List.cons_append, List.head?_cons, hhead]
    · show (st.nodes ++ [(⟨st.nextId, d⟩ : NodeObj)]).Chain' (fun a b => a.id < b.id)
      refine List.chain'_append.mpr ⟨hchain, List.chain'_singleton _, ?_⟩
      intro x hx y hy
      simp only [List.head?_cons, Option.mem_def, Option.some.injEq] at hy
      subst hy
      obtain ⟨hne, hxl⟩ := List.mem_getLast?_eq_getLast hx
      exact hxl ▸ hlt _ (List.getLast_mem hne)
    · show ∀ n ∈ st.nodes ++ [(⟨st.nextId, d⟩ : NodeObj)], n.id < st.nextId + 1
      intro n hn'
      rcases List.mem_append.mp hn' with hmem | hmem
      · exact Nat.lt_succ_of_lt (hlt _ hmem)
      · simp only [List.mem_singleton] at hmem
        subst hmem
        exact Nat.lt_succ_self _
    · show st.conns ++ [((st.nodes.getLastD st.source).id, st.nextId)]
          = adjPairs (st.nodes ++ [(⟨st.nextId, d⟩ : NodeObj)])
      rw [hconns, hn, adjPairs_concat st.source t a ⟨st.nextId, d⟩]

theorem addNodeTS_ok_shape (st st' : Plugin) (c : AppendCall)
    (h : addNodeTS st c.kind.name c.opts c.env = .ok st') :
    ∃ d : NodeDesc, st' = stepPush st d := by
  cases hk : c.kind <;>
    simp only [hk, NodeKind.name, addNodeTS, String.reduceEq, if_true, if_false,
      reduceIte, Except.ok.injEq] at h
  case gain => exact ⟨_, h.symm⟩
  case biquadFilter => exact ⟨_, h.symm⟩
  case dynamicCompressor => exact ⟨_, h.symm⟩
  case delay => exact ⟨_, h.symm⟩
  case convolver =>
    cases hd : c.env.decoded with
    | error e => rw [hd] at h; simp [_addConvolverNode, createNode] at h
    | ok buf =>
      rw [hd] at h
      simp only [_addConvolverNode, createNode, Except.ok.injEq] at h
      exact ⟨_, h.symm⟩
  case waveShaper => exact ⟨_, h.symm⟩
  case processingScript =>
    cases hm : c.env.moduleResult with
    | error e => rw [hm] at h; simp [_addProcessingScript] at h
    | ok u =>
      cases hc : c.env.ctorResult with
      | error e => rw [hm, hc] at h; simp [_addProcessingScript] at h
      | ok u' =>
        rw [hm, hc] at h
        simp only [_addProcessingScript, createNode, Except.ok.injEq] at h
        exact ⟨_, h.symm⟩

theorem runCalls_ok_inv :
    ∀ (calls : List AppendCall) (st st' : Plugin),
      Inv st → runCalls st calls = .ok st' →
      Inv st' ∧ st'.nodes.length = st.nodes.length + calls.length ∧ st'.source = st.source
  | [], st, st', hinv, h => by
    simp only [runCalls, Except.ok.injEq] at h
    subst h
    exact ⟨hinv, rfl, rfl⟩
  | c :: cs, st, st', hinv, h => by
    simp only [runCalls] at h
    cases h1 : addNodeTS st c.kind.name c.opts c.env with
    | error e => rw [h1] at h; exact absurd h (by simp)
    | ok st1 =>
      rw [h1] at h
      obtain ⟨d, hd⟩ := addNodeTS_ok_shape st st1 c h1
      subst hd
      obtain ⟨hinv', hlen, hsrc⟩ :=
        runCalls_ok_inv cs (stepPush st d) st' (Inv_stepPush d hinv) h
      refine ⟨hinv', ?_, hsrc.trans (stepPush_source st d)⟩
      rw [hlen, stepPush_nodes]
      simp only [List.length_append, List.length_cons, List.length_nil]
      omega

theorem Inv_mkPlugin (stream dstream : MediaStream) : Inv (mkPlugin stream dstream) := by
  refine ⟨rfl, List.chain'_singleton _, ?_, rfl⟩
  intro n hn
  simp only [mkPlugin, List.mem_singleton] at hn
  subst hn
  show (0 : ℕ) < 2
  norm_num

/-- A sample input stream with one audio and one video track. -/
def sampleStream : MediaStream := ⟨[⟨10, .audio⟩, ⟨11, .video⟩]⟩

/-- A sample destination stream with one processed audio track. -/
def sampleDest : MediaStream := ⟨[⟨20, .audio⟩]⟩

/-- A freshly constructed plugin over the sample streams. -/
def samplePlugin : Plugin := mkPlugin sampleStream sampleDest

/-- The descriptor of the most recently appended node of the chain. -/
def lastDesc (st : Plugin) : Option NodeDesc :=
  st.nodes.getLast?.map NodeObj.desc

/-- C1: after any sequence of N successful `addNode` calls on a fresh
chain, `nodes` has length N+1, starts with the source, contains no node
twice, and the established connections are exactly the adjacent pairs of
`nodes` in call order (each node connected from the previous tail). -/
theorem chain_append_invariant (stream dstream : MediaStream)
    (calls : List AppendCall) (st' : Plugin)
    (h : runCalls (mkPlugin stream dstream) calls = .ok st') :
    st'.nodes.length = calls.length + 1 ∧
    st'.nodes.head? = some (mkPlugin stream dstream).source ∧
    (st'.nodes.map NodeObj.id).Nodup ∧
    st'.conns = adjPairs st'.nodes := by
  obtain ⟨hinv, hlen, hsrc⟩ :=
    runCalls_ok_inv calls _ st' (Inv_mkPlugin stream dstream) h
  obtain ⟨hhead, hchain, _, hconns⟩ := hinv
  refine ⟨?_, ?_, ?_, hconns⟩
  · rw [hlen]
    simp only [mkPlugin, List.length_singleton]
    omega
  · rw [hhead, hsrc]
  · have hc : (st'.nodes.map NodeObj.id).Chain' (· < ·) :=
      (List.chain'_map NodeObj.id).mpr hchain
    have hp := List.chain'_iff_pairwise.mp hc
    exact hp.imp Nat.ne_of_lt

/-- The concrete call list used to witness C1. -/
def c1calls : List AppendCall :=
  [⟨.gain, emptyOpts, dummyEnv⟩,
   ⟨.delay, { emptyOpts with delayTime := .num 1, maxDelayTime := .num 2 }, dummyEnv⟩]

/-- The chain state after running `c1calls` on the sample plugin. -/
def c1result : Plugin :=
  { nodes := [⟨0, .source⟩, ⟨2, .gainNode (.num 1)⟩, ⟨3, .delayNode (.num 1) (.num 2)⟩]
    conns := [(0, 2), (2, 3)]
    nextId := 4
    source := ⟨0, .source⟩
    destination := ⟨1, .destination⟩
    originalStream := sampleStream
    destStream := sampleDest }

/-- Witness for C1 at a concrete two-call run. -/
theorem chain_append_invariant_witness :
    c1result.nodes.length = c1calls.length + 1 ∧
    c1result.nodes.head? = some (mkPlugin sampleStream sampleDest).source ∧
    (c1result.nodes.map NodeObj.id).Nodup ∧
    c1result.conns = adjPairs c1result.nodes :=
  chain_append_invariant sampleStream sampleDest c1calls c1result (by decide)

theorem foldl_addTrack :
    ∀ (ts : List Track) (acc : MediaStream), ts.Nodup → (∀ t ∈ ts, t ∉ acc.tracks) →
      (ts.foldl MediaStream.addTrack acc).tracks = acc.tracks ++ ts
  | [], acc, _, _ => by simp
  | t :: ts, acc, hnd, hdisj => by
    simp only [List.foldl_cons]
    have ht : t ∉ acc.tracks := hdisj t (List.mem_cons_self t ts)
    have h1 : MediaStream.addTrack acc t = ⟨acc.tracks ++ [t]⟩ := by
      simp [MediaStream.addTrack, ht]
    rw [h1]
    have hnd' : ts.Nodup := (List.nodup_cons.mp hnd).2
    have hdisj' : ∀ u ∈ ts, u ∉ acc.tracks ++ [t] := by
      intro u hu
      simp only [List.mem_append, List.mem_singleton, not_or]
      refine ⟨hdisj u (List.mem_cons_of_mem _ hu), ?_⟩
      intro he
      exact (List.nodup_cons.mp hnd).1 (he ▸ hu)
    rw [foldl_addTrack ts ⟨acc.tracks ++ [t]⟩ hnd' hdisj']
    simp

/-- C8: the output stream's audio tracks are exactly the destination
stream's audio tracks and its video tracks are exactly the original
stream's video tracks, in order, with the same track objects; the full
track list is the concatenation audio-then-video.  The hypotheses say the
two real streams hold no duplicate track. -/
theorem output_stream_tracks (st : Plugin)
    (hd : st.destStream.tracks.Nodup) (ho : st.originalStream.tracks.Nodup) :
    (getProcessedStream st).2.tracks
      = st.destStream.getAudioTracks ++ st.originalStream.getVideoTracks ∧
    (getProcessedStream st).2.getAudioTracks = st.destStream.getAudioTracks ∧
    (getProcessedStream st).2.getVideoTracks = st.originalStream.getVideoTracks := by
  have hdA : st.destStream.getAudioTracks.Nodup := hd.filter _
  have hoV : st.originalStream.getVideoTracks.Nodup := ho.filter _
  have hAaudio : ∀ t ∈ st.destStream.getAudioTracks, t.kind = TrackKind.audio := by
    intro t htm
    have := List.of_mem_filter htm
    simpa using this
  have hVvideo : ∀ t ∈ st.originalStream.getVideoTracks, t.kind = TrackKind.video := by
    intro t htm
    have := List.of_mem_filter htm
    simpa using this
  have h1 : (st.destStream.getAudioTracks.foldl MediaStream.addTrack ⟨[]⟩).tracks
      = st.destStream.getAudioTracks := by
    rw [foldl_addTrack _ _ hdA (by intro t _; simp)]
    simp
  have h2 : (getProcessedStream st).2.tracks
      = st.destStream.getAudioTracks ++ st.originalStream.getVideoTracks := by
    show (st.originalStream.getVideoTracks.foldl MediaStream.addTrack
      (st.destStream.getAudioTracks.foldl MediaStream.addTrack ⟨[]⟩)).tracks = _
    rw [foldl_addTrack _ _ hoV ?_, h1]
    intro t htm
    rw [h1]
    intro habs
    have := hAaudio t habs
    rw [hVvideo t htm] at this
    exact TrackKind.noConfusion this
  refine ⟨h2, ?_, ?_⟩
  · show List.filter _ (getProcessedStream st).2.tracks = _
    rw [h2, List.filter_append]
    rw [List.filter_eq_self.mpr (by intro a ha; simpa using hAaudio a ha)]
    rw [List.filter_eq_nil_iff.mpr ?_, List.append_nil]
    intro a ha
    simp only [decide_eq_true_eq]
    rw [hVvideo a ha]
    intro habs
    exact TrackKind.noConfusion habs
  · show List.filter _ (getProcessedStream st).2.tracks = _
    rw [h2, List.filter_append]
    rw [List.filter_eq_nil_iff.mpr ?_, List.nil_append]
    · rw [List.filter_eq_self.mpr (by intro a ha; simpa using hVvideo a ha)]
    · intro a ha
      simp only [decide_eq_true_eq]
      rw [hAaudio a ha]
      intro habs
      exact TrackKind.noConfusion habs

/-- Witness for C8 on the sample streams. -/
theorem output_stream_tracks_witness :
    (getProcessedStream samplePlugin).2.tracks
      = samplePlugin.destStream.getAudioTracks
        ++ samplePlugin.originalStream.getVideoTracks ∧
    (getProcessedStream samplePlugin).2.getAudioTracks
      = samplePlugin.destStream.getAudioTracks ∧
    (getProcessedStream samplePlugin).2.getVideoTracks
      = samplePlugin.originalStream.getVideoTracks :=
  output_stream_tracks samplePlugin (by decide) (by decide)

/-- C3 counterexample: on a concrete fresh chain, a second
`getProcessedStream` call does not leave the audio graph unchanged (and no
`AlreadyFinalizedError` exists to be raised — the call returns normally):
the nodes list becomes `[source, destination, destination]`. -/
theorem finalize_twice_cex :
    (getProcessedStream (getProcessedStream samplePlugin).1).1
        ≠ (getProcessedStream samplePlugin).1 ∧
    (getProcessedStream (getProcessedStream samplePlugin).1).1.nodes.map NodeObj.id
        = [0, 1, 1] := by decide

/-- C3 amended: `getProcessedStream` has no finalization guard.  A second
call returns normally and alters the graph: it appends the destination to
the nodes list a second time and connects the destination to itself, while
assembling the returned stream the same way as the first call. -/
theorem finalize_twice_behavior (st : Plugin) :
    (getProcessedStream (getProcessedStream st).1).1.nodes
      = (getProcessedStream st).1.nodes ++ [st.destination] ∧
    (getProcessedStream (getProcessedStream st).1).1.conns
      = (getProcessedStream st).1.conns ++ [(st.destination.id, st.destination.id)] ∧
    (getProcessedStream (getProcessedStream st).1).2 = (getProcessedStream st).2 := by
  refine ⟨rfl, ?_, rfl⟩
  show (_pushBack st st.destination).conns
      ++ [(((st.nodes ++ [st.destination]).getLastD st.source).id, st.destination.id)] = _
  rw [List.getLastD_concat]
  rfl

/-- C2 counterexample: on a concrete chain, `addNode` with an unrecognized
kind name returns normally with the chain unchanged — no `UnknownKindError`
(or any error) is raised, in either variant. -/
theorem unknown_kind_cex :
    addNodeTS samplePlugin "UNKNOWN_KIND" emptyOpts dummyEnv = .ok samplePlugin ∧
    addNode samplePlugin "UNKNOWN_KIND" emptyOpts dummyEnv = (samplePlugin, none) := by
  decide

/-- C2 amended: `addNode` with a kind name outside the seven recognized
kinds is a silent no-op: the `switch` has no `default` branch, so no error
is raised and the chain state is returned unchanged, in both variants. -/
theorem unknown_kind_noop (st : Plugin) (name : String) (o : NodeOptionsObj) (env : Env)
    (h : name ∉ ["GAIN", "BIQUAD_FILTER", "DYNAMIC_COMPRESSOR", "DELAY", "CONVOLVER",
      "WAVE_SHAPER", "PROCESSING_SCRIPT"]) :
    addNodeTS st name o env = .ok st ∧ addNode st name o env = (st, none) := by
  simp only [List.mem_cons, List.not_mem_nil, or_false, not_or] at h
  obtain ⟨h1, h2, h3, h4, h5, h6, h7⟩ := h
  exact ⟨by simp [addNodeTS, h1, h2, h3, h4, h5, h6, h7],
    by simp [addNode, h1, h2, h3, h4, h5, h6, h7]⟩

/-- Witness for the amended C2 at a concrete unknown kind. -/
theorem unknown_kind_noop_witness :
    addNodeTS samplePlugin "REVERB" emptyOpts dummyEnv = .ok samplePlugin ∧
    addNode samplePlugin "REVERB" emptyOpts dummyEnv = (samplePlugin, none) :=
  unknown_kind_noop samplePlugin "REVERB" emptyOpts dummyEnv (by decide)

/-- The chain state after appending the invalid DELAY stage of the C9
counterexample: the stage is simply constructed and connected. -/
def delayCexResult : Plugin :=
  { nodes := [⟨0, .source⟩, ⟨2, .delayNode (.num (1/2)) (.num (1/5))⟩]
    conns := [(0, 2)]
    nextId := 3
    source := ⟨0, .source⟩
    destination := ⟨1, .destination⟩
    originalStream := sampleStream
    destStream := sampleDest }

/-- C9 counterexample: `append("DELAY", {delayTime: 0.5, maxDelayTime: 0.2})`
succeeds on a concrete chain — the stage is appended with the given values
and no `InvalidConfigurationError` (or any error) is raised. -/
theorem delay_invalid_config_cex :
    addNodeTS samplePlugin "DELAY"
      { emptyOpts with delayTime := .num (1/2), maxDelayTime := .num (1/5) } dummyEnv
      = .ok delayCexResult ∧
    delayCexResult.nodes.length = samplePlugin.nodes.length + 1 := ⟨rfl, rfl⟩

/-- C9 amended: `_addDelayNode` performs no configuration validation at
all: for every configuration, including `maxDelayTime < delayTime`, the
stage is constructed with exactly the given values and appended. -/
theorem delay_no_validation (st : Plugin) (o : NodeOptionsObj) (env : Env) :
    addNodeTS st "DELAY" o env = .ok (_addDelayNode st o) ∧
    (_addDelayNode st o).nodes
      = st.nodes ++ [⟨st.nextId, .delayNode o.delayTime o.maxDelayTime⟩] := by
  exact ⟨by simp [addNodeTS], rfl⟩

/-- C5: a failed CONVOLVER fetch/decode (or a failed PROCESSING_SCRIPT
module load) propagates the environment's error from the awaited `addNode`,
and the chain is left as before the call: `nodes` and the established
connections are unchanged (only the node-allocation counter advanced for
the convolver object created before the fetch). -/
theorem failed_append_leaves_chain (st : Plugin) (o : NodeOptionsObj) (e e' : JSError)
    (env1 env2 : Env) (h1 : env1.decoded = .error e) (h2 : env2.moduleResult = .error e') :
    addNodeTS st "CONVOLVER" o env1 = .error (e, { st with nextId := st.nextId + 1 }) ∧
    ({ st with nextId := st.nextId + 1 } : Plugin).nodes = st.nodes ∧
    ({ st with nextId := st.nextId + 1 } : Plugin).conns = st.conns ∧
    addNodeTS st "PROCESSING_SCRIPT" o env2 = .error (e', st) := by
  refine ⟨?_, rfl, rfl, ?_⟩
  · simp [addNodeTS, _addConvolverNode, createNode, h1]
  · simp [addNodeTS, _addProcessingScript, h2]

/-- Witness for C5 at concrete failing environments. -/
theorem failed_append_leaves_chain_witness :
    addNodeTS samplePlugin "CONVOLVER" emptyOpts ⟨.error .resourceFetchError, .ok (), .ok ()⟩
      = .error (.resourceFetchError, { samplePlugin with nextId := samplePlugin.nextId + 1 }) ∧
    ({ samplePlugin with nextId := samplePlugin.nextId + 1 } : Plugin).nodes
      = samplePlugin.nodes ∧
    ({ samplePlugin with nextId := samplePlugin.nextId + 1 } : Plugin).conns
      = samplePlugin.conns ∧
    addNodeTS samplePlugin "PROCESSING_SCRIPT" emptyOpts ⟨.ok 0, .error .moduleLoadError, .ok ()⟩
      = .error (.moduleLoadError, samplePlugin) :=
  failed_append_leaves_chain samplePlugin emptyOpts .resourceFetchError .moduleLoadError
    ⟨.error .resourceFetchError, .ok (), .ok ()⟩ ⟨.ok 0, .error .moduleLoadError, .ok ()⟩
    rfl rfl

/-- C6 counterexample: in the JS variant, `addNode('CONVOLVER', ...)` calls
the async helper without `await`: at a concrete input whose fetch fails,
the value `addNode` hands back to its caller is the unchanged chain with no
error in sight — the `ResourceFetchError` lives only in the pending result
of the discarded promise, which the caller of `addNode` never observes, and
`addNode` has returned before the loading work failed. -/
theorem js_addNode_not_awaited_cex :
    (addNode samplePlugin "CONVOLVER" emptyOpts
        ⟨.error .resourceFetchError, .ok (), .ok ()⟩).1.nodes = samplePlugin.nodes ∧
    (addNode samplePlugin "CONVOLVER" emptyOpts
        ⟨.error .resourceFetchError, .ok (), .ok ()⟩).2
      = some (.error (.resourceFetchError, { samplePlugin with nextId := 3 })) := by
  decide

/-- C6 amended: in the TS variant every resource-loading error (convolver
fetch/decode, worklet module load, processor instantiation) is surfaced to
the immediate caller of the awaited `addNode`, which resolves only after
the asynchronous work completed or failed; in the JS variant `addNode`
returns immediately with the helper's outcome left in a pending promise
the caller never sees. -/
theorem append_error_surfacing (st : Plugin) (o : NodeOptionsObj) (env : Env) (e : JSError) :
    (env.decoded = .error e →
      addNodeTS st "CONVOLVER" o env = .error (e, { st with nextId := st.nextId + 1 })) ∧
    (env.moduleResult = .error e →
      addNodeTS st "PROCESSING_SCRIPT" o env = .error (e, st)) ∧
    (env.moduleResult = .ok () → env.ctorResult = .error e →
      addNodeTS st "PROCESSING_SCRIPT" o env = .error (e, st)) ∧
    addNode st "CONVOLVER" o env
      = ({ st with nextId := st.nextId + 1 }, some (_addConvolverNode st o env.decoded)) ∧
    addNode st "PROCESSING_SCRIPT" o env
      = (st, some (_addProcessingScript st o env.moduleResult env.ctorResult)) := by
  refine ⟨?_, ?_, ?_, by simp [addNode], by simp [addNode]⟩
  · intro h
    simp [addNodeTS, _addConvolverNode, createNode, h]
  · intro h
    simp [addNodeTS, _addProcessingScript, h]
  · intro hm hc
    simp [addNodeTS, _addProcessingScript, hm, hc]

/-- Witness for the amended C6 at a concrete failing fetch. -/
theorem append_error_surfacing_witness :
    addNodeTS samplePlugin "CONVOLVER" emptyOpts ⟨.error .decodeError, .ok (), .ok ()⟩
      = .error (.decodeError, { samplePlugin with nextId := samplePlugin.nextId + 1 }) :=
  (append_error_surfacing samplePlugin emptyOpts
    ⟨.error .decodeError, .ok (), .ok ()⟩ .decodeError).1 rfl

/-- C4 counterexample: in the TS variant an explicitly supplied `gain: 0`
(a falsy value) is NOT replaced by the default 1 — the destructuring
default fires only on `undefined`, so the appended gain stage carries 0. -/
theorem ts_default_keeps_zero_cex :
    lastDesc (_addGainNodeTS samplePlugin { emptyOpts with gain := .num 0 })
      = some (.gainNode (.num 0)) ∧
    (NodeDesc.gainNode (.num 0) ≠ NodeDesc.gainNode (.num 1)) := by decide

/-- C4 amended: in the JS variant, any falsy value (absent, `null`, zero,
empty string, `false`) of every defaulted parameter of GAIN, BIQUAD_FILTER
and DYNAMIC_COMPRESSOR is replaced by the §4.1 default; in the TS variant
only an absent (`undefined`) value is replaced, an explicitly supplied
value (including a falsy one) being kept; in both variants `append(K, {})`
configures exactly the defaults. -/
theorem defaulting_policy (st : Plugin) (v w : JSValue)
    (hv : v.truthy = false) (hw : w ≠ .undef) :
    lastDesc (_addGainNode st (allOpts v)) = some (.gainNode (.num 1)) ∧
    lastDesc (_addBiquadFilterNode st (allOpts v))
      = some (.biquadFilterNode (.str "lowpass") (.num 350) (.num 1)) ∧
    lastDesc (_addDynamicCompressorNode st (allOpts v))
      = some (.dynamicsCompressorNode (.num (-50)) (.num 40) (.num 12) (.num 0)
          (.num (1/4))) ∧
    lastDesc (_addGainNodeTS st emptyOpts) = some (.gainNode (.num 1)) ∧
    lastDesc (_addBiquadFilterNodeTS st emptyOpts)
      = some (.biquadFilterNode (.str "lowpass") (.num 350) (.num 1)) ∧
    lastDesc (_addDynamicCompressorNodeTS st emptyOpts)
      = some (.dynamicsCompressorNode (.num (-50)) (.num 40) (.num 12) (.num 0)
          (.num (1/4))) ∧
    lastDesc (_addGainNodeTS st { emptyOpts with gain := w }) = some (.gainNode w) := by
  refine ⟨?_, ?_, ?_, ?_, ?_, ?_, ?_⟩ <;>
    simp [lastDesc, _addGainNode, _addGainNodeTS, _addBiquadFilterNode,
      _addBiquadFilterNodeTS, _addDynamicCompressorNode, _addDynamicCompressorNodeTS,
      _pushBack, createNode, List.getLast?_concat, jsOr, tsDefault, allOpts, emptyOpts,
      hv, hw]

/-- Witness for the amended C4: with the falsy value `null` every JS-variant
defaulted parameter comes out as the table default. -/
theorem defaulting_policy_witness :
    JSValue.truthy .null = false ∧
    lastDesc (_addGainNode samplePlugin (allOpts .null)) = some (.gainNode (.num 1)) :=
  ⟨by decide, (defaulting_policy samplePlugin .null (.num 7) (by decide) (by decide)).1⟩

/-- C7 counterexample: applying a preset name outside the catalog on a
concrete chain returns normally — the `switch` falls through, no stage is
appended, the chain is finalized and its stream returned; no
`UnknownPresetError` (or any error) is raised. -/
theorem unknown_preset_cex :
    usePreset samplePlugin "NOT_A_PRESET" = .ok (getProcessedStream samplePlugin) ∧
    usePresetJS samplePlugin "NOT_A_PRESET" = getProcessedStream samplePlugin := ⟨rfl, rfl⟩

/-- C7 amended: applying a preset whose name is not in the catalog does not
fail: in both variants the preset `switch` has no `default` branch, so the
call appends nothing, finalizes the chain and returns the output stream. -/
theorem unknown_preset_no_error (st : Plugin) (name : String)
    (h : name ∉ presetNames) :
    usePreset st name = .ok (getProcessedStream st) ∧
    usePresetJS st name = getProcessedStream st := by
  simp only [presetNames, List.mem_cons, List.not_mem_nil, or_false, not_or] at h
  obtain ⟨h1, h2, h3, h4, h5⟩ := h
  constructor
  · show (if name = "GAIN_BIQUAD_DELAY" then _ else _) = _
    rw [if_neg h1, if_neg h2, if_neg h3, if_neg h4, if_neg h5]
    rfl
  · show getProcessedStream (if name = "GAIN_BIQUAD_DELAY" then _ else st) = _
    rw [if_neg h1]

/-- Witness for the amended C7 at a concrete unrecognized preset name. -/
theorem unknown_preset_no_error_witness :
    usePreset samplePlugin "CHORUS" = .ok (getProcessedStream samplePlugin) ∧
    usePresetJS samplePlugin "CHORUS" = getProcessedStream samplePlugin :=
  unknown_preset_no_error samplePlugin "CHORUS" (by decide)

/-- C10: for every preset name, `usePreset` is exactly "apply the preset's
stages, then finalize via `getProcessedStream` and return the resulting
stream"; an unrecognized name appends no stages, so the returned stream
comes from a chain that finalization leaves containing only source and
sink. -/
theorem usePreset_always_finalizes (st : Plugin) (preset : String)
    (stream dstream : MediaStream) (h : preset ∉ presetNames) :
    (∀ p : String, usePreset st p = .ok (getProcessedStream (presetStages st p))) ∧
    presetStages st preset = st ∧
    usePreset st preset = .ok (getProcessedStream st) ∧
    (getProcessedStream (mkPlugin stream dstream)).1.nodes.map NodeObj.desc
      = [.source, .destination] := by
  simp only [presetNames, List.mem_cons, List.not_mem_nil, or_false, not_or] at h
  obtain ⟨h1, h2, h3, h4, h5⟩ := h
  refine ⟨?_, ?_, ?_, rfl⟩
  · intro p
    by_cases hp1 : p = "GAIN_BIQUAD_DELAY"
    · subst hp1
      rfl
    · by_cases hp2 : p = "GAIN_DELAY"
      · subst hp2
        rfl
      · by_cases hp3 : p = "DYNAMIC_DELAY"
        · subst hp3
          rfl
        · by_cases hp4 : p = "ECHO"
          · subst hp4
            rfl
          · by_cases hp5 : p = "BIQUAD_DELAY"
            · subst hp5
              rfl
            · simp only [usePreset, presetStages, hp1, hp2, hp3, hp4, hp5, if_false,
                reduceIte]
              rfl
  · simp [presetStages, h1, h2, h3, h4, h5]
  · simp only [usePreset, h1, h2, h3, h4, h5, if_false, reduceIte]
    rfl

/-- Witness for C10 at a concrete unrecognized preset name: the call
finalizes and returns the stream of the source-and-sink-only chain. -/
theorem usePreset_always_finalizes_witness :
    usePreset samplePlugin "FLANGER" = .ok (getProcessedStream samplePlugin) ∧
    (getProcessedStream (mkPlugin sampleStream sampleDest)).1.nodes.map NodeObj.desc
      = [.source, .destination] :=
  ⟨(usePreset_always_finalizes samplePlugin "FLANGER" sampleStream sampleDest
      (by decide)).2.2.1,
   (usePreset_always_finalizes samplePlugin "FLANGER" sampleStream sampleDest
      (by decide)).2.2.2⟩

end AudioRoutingGraph
